import Mathlib
/-!
# Verification of the transcript segmentation & timestamp pipeline

Shallow embedding of `src/main.py` (yt-timestamps-subtitles).  Time values
that the Python code handles as floats are modelled as rational numbers;
Python's arithmetic on them (`divmod`, `//`, `%`, `int(...)`, f-string
formatting such as `f"{h:02d}"`) is embedded by the `py*` helpers below.
External collaborators (moviepy, whisper, the OpenAI client) are modelled
as explicit inputs: the probed duration, the probed audio stream, and the
collaborator call outcomes are parameters of the embedded functions.
-/

def pyInt (q : ℚ) : ℤ := if q < 0 then ⌈q⌉ else ⌊q⌋

def pyFloorDiv (a b : ℚ) : ℚ := (⌊a / b⌋ : ℤ)

def pyMod (a b : ℚ) : ℚ := a - b * (⌊a / b⌋ : ℤ)

def pyDivmod (a b : ℚ) : ℚ × ℚ := (pyFloorDiv a b, pyMod a b)

def zfill (w : ℕ) (s : String) : String :=
  String.mk (List.replicate (w - s.length) '0') ++ s

def pyFormatInt (w : ℕ) (n : ℤ) : String :=
  if n < 0 then "-" ++ zfill (w - 1) (Nat.repr n.natAbs) else zfill w (Nat.repr n.natAbs)

def pyStr (n : ℤ) : String :=
  if n < 0 then "-" ++ Nat.repr n.natAbs else Nat.repr n.natAbs

/-- `format_time` from `src/main.py`:

```
def format_time(seconds) -> str:
    hours, remainder = divmod(seconds, 3600)
    minutes, seconds = divmod(remainder, 60)
    milliseconds = int((seconds - int(seconds)) * 1000)
    return f"{int(hours):02d}:{int(minutes):02d}:{int(seconds):02d},{milliseconds:03d}"
```
-/

def format_time (seconds : ℚ) : String :=
  let hr := pyDivmod seconds 3600
  let msec := pyDivmod hr.2 60
  let milliseconds := pyInt ((msec.2 - (pyInt msec.2 : ℚ)) * 1000)
  pyFormatInt 2 (pyInt hr.1) ++ ":" ++ pyFormatInt 2 (pyInt msec.1) ++ ":" ++
    pyFormatInt 2 (pyInt msec.2) ++ "," ++ pyFormatInt 3 milliseconds

def get_video_duration (duration : ℚ) : String :=
  let hours := pyInt (pyFloorDiv duration 3600)
  let minutes := pyInt (pyFloorDiv (pyMod duration 3600) 60)
  let seconds := pyInt (pyMod duration 60)
  pyStr hours ++ ":" ++ pyStr minutes ++ ":" ++ pyStr seconds

def matchesSrtPattern (s : String) : Bool :=
  s.data.length == 12 &&
    (s.data.getD 0 ' ').isDigit && (s.data.getD 1 ' ').isDigit &&
    (s.data.getD 2 ' ') == ':' &&
    (s.data.getD 3 ' ').isDigit && (s.data.getD 4 ' ').isDigit &&
    (s.data.getD 5 ' ') == ':' &&
    (s.data.getD 6 ' ').isDigit && (s.data.getD 7 ' ').isDigit &&
    (s.data.getD 8 ' ') == ',' &&
    (s.data.getD 9 ' ').isDigit && (s.data.getD 10 ' ').isDigit &&
    (s.data.getD 11 ' ').isDigit

def render (k : ℕ) : String :=
  pyFormatInt 2 ((k / 3600000 : ℕ) : ℤ) ++ ":" ++
    pyFormatInt 2 ((k / 60000 % 60 : ℕ) : ℤ) ++ ":" ++
    pyFormatInt 2 ((k / 1000 % 60 : ℕ) : ℤ) ++ "," ++
    pyFormatInt 3 ((k % 1000 : ℕ) : ℤ)

def dCh (d : ℕ) : Char := Char.ofNat (48 + d)

def renderChars (k : ℕ) : List Char :=
  [dCh (k / 3600000 / 10), dCh (k / 3600000 % 10), ':',
   dCh (k / 60000 % 60 / 10), dCh (k / 60000 % 60 % 10), ':',
   dCh (k / 1000 % 60 / 10), dCh (k / 1000 % 60 % 10), ',',
   dCh (k % 1000 / 100), dCh (k % 1000 / 10 % 10), dCh (k % 1000 % 10)]

def pyStrip (s : String) : String :=
  String.mk (((s.data.dropWhile Char.isWhitespace).reverse.dropWhile Char.isWhitespace).reverse)

structure Segment where
  start : ℚ
  end_ : ℚ
  text : String
deriving DecidableEq

def srt_lines (segments : List Segment) : List String :=
  (segments.enum).foldl
    (fun srt_text p =>
      ((srt_text ++ [Nat.repr (p.1 + 1)])
        ++ [format_time p.2.start ++ " --> " ++ format_time p.2.end_])
        ++ [pyStrip p.2.text] ++ [""])
    []

def segments_to_srt (segments : List Segment) : String :=
  String.intercalate "\n" (srt_lines segments)

def block_lines (k : ℕ) : List Segment → List String
  | [] => []
  | s :: rest =>
      Nat.repr (k + 1) :: (format_time s.start ++ " --> " ++ format_time s.end_)
        :: pyStrip s.text :: "" :: block_lines (k + 1) rest

inductive PyErr where
  | valueError (msg : String)
  | otherError (msg : String)
deriving DecidableEq

def PyErr.msg : PyErr → String
  | .valueError m => m
  | .otherError m => m

structure Video where
  hasAudio : Bool
deriving DecidableEq

structure Transcript where
  text : String
  segments : List Segment
deriving DecidableEq

structure TranscribeOutcome where
  result : Option Transcript
  whisperInvoked : Bool
  printed : List String
deriving DecidableEq

def transcribe_body (openResult : Except PyErr Video) (whisper : Except PyErr Transcript) :
    Except PyErr Transcript × Bool :=
  match openResult with
  | .error e => (.error e, false)
  | .ok video =>
    if video.hasAudio then
      match whisper with
      | .error e => (.error e, true)
      | .ok t => (.ok t, true)
    else (.error (.valueError "File does not contain an audio stream."), false)

def handle_message : PyErr → String
  | .valueError m => "Error transcribing video: " ++ m
  | .otherError m => "Unexpected error transcribing video: " ++ m

def transcribe (openResult : Except PyErr Video) (whisper : Except PyErr Transcript) :
    TranscribeOutcome :=
  match transcribe_body openResult whisper with
  | (.ok t, invoked) => ⟨some t, invoked, []⟩
  | (.error e, invoked) => ⟨none, invoked, [handle_message e]⟩

structure ChatMessage where
  role : String
  content : String
deriving DecidableEq

def system_prompt : String :=
  "You are a helpful assistant that will summarize\n                           audio transcripts and generate YouTube video\n                           timestamps for important topics in the transcript.\n                           You will adhere to YouTube video timestamp format.\n                           The format expects the timestamps to be formatted as\n                           `HH:MM:SS` for videos longer than an hour and as `MM:SS`\n                           for videos less than an hour. For example, a video\n                           with a length of 00:59:59 (provided as `HH:MM:SS`)\n                           would have timestamps formatted as `MM:SS`, with a min\n                           value of 00:00 and a max value of 59:59. \n                           \n                           The timestamps should consider segments in the\n                           transcript but not include each segment but only\n                           summarize the general themes. The timestamps should\n                           not exceed the full length of the video. Segments\n                           will be provided in SRT format `HH:MM:SS,MS -->\n                           HH:MM:SS,MS` to assist with YouTube timestamp chapter\n                           generation. You should not generate a summary for\n                           each SRT segment, but rather, generate a set of\n                           summary YouTube timestamps that can be used as key\n                           points across all segments. \n                           \n                           For example, a video with\n                           a length of 00:20:00 might have 8-10 total timestamps\n                           with the timestamp format `MM:SS`. It might have a\n                           set of input text that follows the format: \n                           ```\n                           1\n                           00:00:00,000 --> 00:01:00,000\n                           This is the first sentence of the first segment.\n                           \n                           2\n                           00:01:00,000 --> 00:01:15,000\n                           This is the second sentence of the second segment.\n                           \n                           3\n                           00:01:15,000 --> 00:02:20,000\n                           This is the third sentence of the third segment.\n                           ```\n                           Which would result in a set of timestamps like:\n                           ```\n                           0:00 - Introduction\n                           1:15 - Topic overview\n                           etc.\n                           ```\n                "

def generate_summary_messages (transcript : String) (length : String) : List ChatMessage :=
  [⟨"system", system_prompt⟩,
    ⟨"user", "The following transcript is for a video of length " ++ length
      ++ ":\n " ++ transcript⟩]

def generate_summary (transcript : String) (length : String)
    (collaborator : List ChatMessage → String) : String :=
  pyStrip (collaborator (generate_summary_messages transcript length))

theorem pyInt_intCast (z : ℤ) : pyInt (z : ℚ) = z := by
  unfold pyInt
  split
  · exact Int.ceil_intCast z
  · exact Int.floor_intCast z

theorem pyInt_of_nonneg {q : ℚ} (h : 0 ≤ q) : pyInt q = ⌊q⌋ := by
  unfold pyInt
  rw [if_neg (not_lt.mpr h)]

theorem pyMod_nonneg (a : ℚ) {b : ℚ} (hb : 0 < b) : 0 ≤ pyMod a b := by
  unfold pyMod
  have h1 : (⌊a / b⌋ : ℚ) ≤ a / b := Int.floor_le _
  have h2 : b * (⌊a / b⌋ : ℚ) ≤ b * (a / b) := mul_le_mul_of_nonneg_left h1 hb.le
  have h3 : b * (a / b) = a := by field_simp
  linarith

theorem pyMod_lt (a : ℚ) {b : ℚ} (hb : 0 < b) : pyMod a b < b := by
  unfold pyMod
  have h1 : a / b < ⌊a / b⌋ + 1 := Int.lt_floor_add_one _
  have h2 : b * (a / b) < b * ((⌊a / b⌋ : ℚ) + 1) := by
    exact (mul_lt_mul_left hb).mpr h1
  have h3 : b * (a / b) = a := by field_simp
  nlinarith

theorem floor_div_int (q : ℚ) (z : ℤ) (hz : 0 < z) : ⌊q / (z : ℚ)⌋ = ⌊q⌋ / z := by
  have hzq : (0 : ℚ) < (z : ℚ) := by exact_mod_cast hz
  apply eq_of_forall_le_iff
  intro c
  rw [Int.le_floor, Int.le_ediv_iff_mul_le hz, Int.le_floor, le_div_iff₀ hzq]
  constructor
  · intro h; exact_mod_cast h
  · intro h; exact_mod_cast h

theorem floor_div_via_scale (q : ℚ) (z : ℤ) (hz : 0 < z) :
    ⌊q / (z : ℚ)⌋ = ⌊(1000 : ℚ) * q⌋ / (1000 * z) := by
  have hz0 : (z : ℚ) ≠ 0 := by positivity
  have h : q / (z : ℚ) = ((1000 : ℚ) * q) / ((1000 * z : ℤ) : ℚ) := by
    push_cast
    field_simp
    ring
  rw [h, floor_div_int _ _ (by positivity)]

theorem format_time_eq (q : ℚ) (hq : 0 ≤ q) :
    format_time q = render (⌊(1000 : ℚ) * q⌋).toNat := by
  have hk0 : (0 : ℤ) ≤ ⌊(1000 : ℚ) * q⌋ := Int.floor_nonneg.mpr (by positivity)
  have e3600 : (3600 : ℚ) = ((3600 : ℤ) : ℚ) := by norm_num
  have e60 : (60 : ℚ) = ((60 : ℤ) : ℚ) := by norm_num
  have hfq : ⌊q⌋ = ⌊(1000 : ℚ) * q⌋ / 1000 := by
    simpa using floor_div_via_scale q 1 one_pos
  have hHf : ⌊q / (3600 : ℚ)⌋ = ⌊(1000 : ℚ) * q⌋ / 3600000 := by
    rw [e3600, floor_div_via_scale q 3600 (by norm_num)]
    norm_num
  have h60f : ⌊q / (60 : ℚ)⌋ = ⌊(1000 : ℚ) * q⌋ / 60000 := by
    rw [e60, floor_div_via_scale q 60 (by norm_num)]
    norm_num
  have hr2 : pyMod q 3600 = q - ((3600 * (⌊(1000 : ℚ) * q⌋ / 3600000) : ℤ) : ℚ) := by
    unfold pyMod
    rw [hHf]
    push_cast
    ring
  have hBf : ⌊(pyMod q 3600) / (60 : ℚ)⌋
      = ⌊(1000 : ℚ) * q⌋ / 60000 - 60 * (⌊(1000 : ℚ) * q⌋ / 3600000) := by
    rw [hr2]
    have hsplit : (q - ((3600 * (⌊(1000 : ℚ) * q⌋ / 3600000) : ℤ) : ℚ)) / 60
        = q / 60 - ((60 * (⌊(1000 : ℚ) * q⌋ / 3600000) : ℤ) : ℚ) := by
      push_cast
      ring
    rw [hsplit, Int.floor_sub_int, h60f]
  have houter : pyMod (pyMod q 3600) 60
      = pyMod q 3600 - 60 * ((⌊(pyMod q 3600) / (60 : ℚ)⌋ : ℤ) : ℚ) := rfl
  have hs2 : pyMod (pyMod q 3600) 60
      = q - ((3600 * (⌊(1000 : ℚ) * q⌋ / 3600000)
          + 60 * (⌊(1000 : ℚ) * q⌋ / 60000 - 60 * (⌊(1000 : ℚ) * q⌋ / 3600000)) : ℤ) : ℚ) := by
    rw [houter, hBf, hr2]
    push_cast
    ring
  have hX2nn : 0 ≤ pyMod (pyMod q 3600) 60 := pyMod_nonneg _ (by norm_num)
  have hCfl : ⌊pyMod (pyMod q 3600) 60⌋
      = ⌊(1000 : ℚ) * q⌋ / 1000 - (3600 * (⌊(1000 : ℚ) * q⌋ / 3600000)
          + 60 * (⌊(1000 : ℚ) * q⌋ / 60000 - 60 * (⌊(1000 : ℚ) * q⌋ / 3600000))) := by
    rw [hs2, Int.floor_sub_int, hfq]
  have hC : pyInt (pyMod (pyMod q 3600) 60)
      = (((⌊(1000 : ℚ) * q⌋).toNat / 1000 % 60 : ℕ) : ℤ) := by
    rw [pyInt_of_nonneg hX2nn, hCfl]
    omega
  have hfr : 0 ≤ pyMod (pyMod q 3600) 60 - ((pyInt (pyMod (pyMod q 3600) 60) : ℤ) : ℚ) := by
    rw [pyInt_of_nonneg hX2nn]
    exact sub_nonneg.2 (Int.floor_le _)
  have hD : pyInt ((pyMod (pyMod q 3600) 60 - ((pyInt (pyMod (pyMod q 3600) 60) : ℤ) : ℚ)) * 1000)
      = (((⌊(1000 : ℚ) * q⌋).toNat % 1000 : ℕ) : ℤ) := by
    rw [pyInt_of_nonneg (mul_nonneg hfr (by norm_num))]
    rw [pyInt_of_nonneg hX2nn, hCfl, hs2]
    have hexp : ((q - ((3600 * (⌊(1000 : ℚ) * q⌋ / 3600000)
          + 60 * (⌊(1000 : ℚ) * q⌋ / 60000 - 60 * (⌊(1000 : ℚ) * q⌋ / 3600000))) : ℤ) : ℚ)
        - ((⌊(1000 : ℚ) * q⌋ / 1000 - (3600 * (⌊(1000 : ℚ) * q⌋ / 3600000)
          + 60 * (⌊(1000 : ℚ) * q⌋ / 60000 - 60 * (⌊(1000 : ℚ) * q⌋ / 3600000))) : ℤ) : ℚ)) * 1000
        = (1000 : ℚ) * q - ((1000 * (⌊(1000 : ℚ) * q⌋ / 1000) : ℤ) : ℚ) := by
      push_cast
      ring
    rw [hexp, Int.floor_sub_int]
    omega
  have hB : pyInt (pyFloorDiv (pyMod q 3600) 60)
      = (((⌊(1000 : ℚ) * q⌋).toNat / 60000 % 60 : ℕ) : ℤ) := by
    have h1 : pyInt (pyFloorDiv (pyMod q 3600) 60) = ⌊(pyMod q 3600) / (60 : ℚ)⌋ :=
      pyInt_intCast _
    rw [h1, hBf]
    omega
  have hA : pyInt (pyFloorDiv q 3600)
      = (((⌊(1000 : ℚ) * q⌋).toNat / 3600000 : ℕ) : ℤ) := by
    have h1 : pyInt (pyFloorDiv q 3600) = ⌊q / (3600 : ℚ)⌋ := pyInt_intCast _
    rw [h1, hHf]
    omega
  have hfmt : format_time q
      = pyFormatInt 2 (pyInt (pyFloorDiv q 3600)) ++ ":"
        ++ pyFormatInt 2 (pyInt (pyFloorDiv (pyMod q 3600) 60)) ++ ":"
        ++ pyFormatInt 2 (pyInt (pyMod (pyMod q 3600) 60)) ++ ","
        ++ pyFormatInt 3 (pyInt ((pyMod (pyMod q 3600) 60
              - ((pyInt (pyMod (pyMod q 3600) 60) : ℤ) : ℚ)) * 1000)) := rfl
  rw [hfmt, hD, hC, hB, hA]
  rfl

theorem pyFormatInt2_eq (n : ℕ) (h : n < 100) :
    pyFormatInt 2 (n : ℤ) = String.mk [dCh (n / 10), dCh (n % 10)] := by
  have key : ∀ m : Fin 100,
      pyFormatInt 2 ((m : ℕ) : ℤ) = String.mk [dCh ((m : ℕ) / 10), dCh ((m : ℕ) % 10)] := by
    decide
  exact key ⟨n, h⟩

set_option maxRecDepth 40000 in

theorem pyFormatInt3_eq (n : ℕ) (h : n < 1000) :
    pyFormatInt 3 (n : ℤ) = String.mk [dCh (n / 100), dCh (n / 10 % 10), dCh (n % 10)] := by
  have key : ∀ m : Fin 1000,
      pyFormatInt 3 ((m : ℕ) : ℤ)
        = String.mk [dCh ((m : ℕ) / 100), dCh ((m : ℕ) / 10 % 10), dCh ((m : ℕ) % 10)] := by
    decide
  exact key ⟨n, h⟩

theorem render_data {k : ℕ} (h : k < 360000000) : (render k).data = renderChars k := by
  unfold render renderChars
  rw [pyFormatInt2_eq (k / 3600000) (by omega), pyFormatInt2_eq (k / 60000 % 60) (by omega),
    pyFormatInt2_eq (k / 1000 % 60) (by omega), pyFormatInt3_eq (k % 1000) (by omega)]
  simp [String.data_append]

theorem dCh_isDigit {d : ℕ} (h : d < 10) : (dCh d).isDigit = true := by
  have key : ∀ m : Fin 10, (dCh (m : ℕ)).isDigit = true := by decide
  exact key ⟨d, h⟩

theorem render_matches {k : ℕ} (h : k < 360000000) : matchesSrtPattern (render k) = true := by
  unfold matchesSrtPattern
  rw [render_data h]
  unfold renderChars
  have d1 := dCh_isDigit (show k / 3600000 / 10 < 10 by omega)
  have d2 := dCh_isDigit (show k / 3600000 % 10 < 10 by omega)
  have d3 := dCh_isDigit (show k / 60000 % 60 / 10 < 10 by omega)
  have d4 := dCh_isDigit (show k / 60000 % 60 % 10 < 10 by omega)
  have d5 := dCh_isDigit (show k / 1000 % 60 / 10 < 10 by omega)
  have d6 := dCh_isDigit (show k / 1000 % 60 % 10 < 10 by omega)
  have d7 := dCh_isDigit (show k % 1000 / 100 < 10 by omega)
  have d8 := dCh_isDigit (show k % 1000 / 10 % 10 < 10 by omega)
  have d9 := dCh_isDigit (show k % 1000 % 10 < 10 by omega)
  simp [d1, d2, d3, d4, d5, d6, d7, d8, d9]

theorem dCh_lt {a b : ℕ} (ha : a < 10) (hb : b < 10) (h : a < b) : dCh a < dCh b := by
  have key : ∀ x y : Fin 10, (x : ℕ) < (y : ℕ) → dCh (x : ℕ) < dCh (y : ℕ) := by decide
  exact key ⟨a, ha⟩ ⟨b, hb⟩ h

theorem renderChars_lex {a b : ℕ} (hb : b < 360000000) (hab : a < b) :
    List.Lex (· < ·) (renderChars a) (renderChars b) := by
  unfold renderChars
  rcases Nat.lt_trichotomy (a / 3600000 / 10) (b / 3600000 / 10) with h1 | h1 | h1
  · exact List.Lex.rel (dCh_lt (by omega) (by omega) h1)
  · rw [h1]
    apply List.Lex.cons
    rcases Nat.lt_trichotomy (a / 3600000 % 10) (b / 3600000 % 10) with h2 | h2 | h2
    · exact List.Lex.rel (dCh_lt (by omega) (by omega) h2)
    · rw [h2]
      apply List.Lex.cons
      apply List.Lex.cons
      rcases Nat.lt_trichotomy (a / 60000 % 60 / 10) (b / 60000 % 60 / 10) with h3 | h3 | h3
      · exact List.Lex.rel (dCh_lt (by omega) (by omega) h3)
      · rw [h3]
        apply List.Lex.cons
        rcases Nat.lt_trichotomy (a / 60000 % 60 % 10) (b / 60000 % 60 % 10) with h4 | h4 | h4
        · exact List.Lex.rel (dCh_lt (by omega) (by omega) h4)
        · rw [h4]
          apply List.Lex.cons
          apply List.Lex.cons
          rcases Nat.lt_trichotomy (a / 1000 % 60 / 10) (b / 1000 % 60 / 10) with h5 | h5 | h5
          · exact List.Lex.rel (dCh_lt (by omega) (by omega) h5)
          · rw [h5]
            apply List.Lex.cons
            rcases Nat.lt_trichotomy (a / 1000 % 60 % 10) (b / 1000 % 60 % 10) with h6 | h6 | h6
            · exact List.Lex.rel (dCh_lt (by omega) (by omega) h6)
            · rw [h6]
              apply List.Lex.cons
              apply List.Lex.cons
              rcases Nat.lt_trichotomy (a % 1000 / 100) (b % 1000 / 100) with h7 | h7 | h7
              · exact List.Lex.rel (dCh_lt (by omega) (by omega) h7)
              · rw [h7]
                apply List.Lex.cons
                rcases Nat.lt_trichotomy (a % 1000 / 10 % 10) (b % 1000 / 10 % 10) with h8 | h8 | h8
                · exact List.Lex.rel (dCh_lt (by omega) (by omega) h8)
                · rw [h8]
                  apply List.Lex.cons
                  have h9 : a % 1000 % 10 < b % 1000 % 10 := by omega
                  exact List.Lex.rel (dCh_lt (by omega) (by omega) h9)
                · omega
              · omega
            · omega
          · omega
        · omega
      · omega
    · omega
  · omega

theorem floor_thousand_nonneg {q : ℚ} (h : 0 ≤ q) : (0 : ℤ) ≤ ⌊(1000 : ℚ) * q⌋ :=
  Int.floor_nonneg.mpr (by positivity)

theorem floor_thousand_lt {q : ℚ} (h : q < 360000) : ⌊(1000 : ℚ) * q⌋ < 360000000 := by
  apply Int.floor_lt.mpr
  push_cast
  linarith

theorem format_time_matches_pattern (q : ℚ) (h0 : 0 ≤ q) (hub : q < 360000) :
    matchesSrtPattern (format_time q) = true := by
  rw [format_time_eq q h0]
  apply render_matches
  have h1 := floor_thousand_nonneg h0
  have h2 := floor_thousand_lt hub
  omega

theorem format_time_matches_pattern_check : matchesSrtPattern (format_time 3661) = true :=
  format_time_matches_pattern 3661 (by decide) (by decide)

theorem format_time_pattern_fails_at_100h :
    (0 : ℚ) ≤ 360000 ∧ format_time 360000 = "100:00:00,000" ∧
      matchesSrtPattern (format_time 360000) = false := by
  have hk : ⌊(1000 : ℚ) * 360000⌋ = (360000000 : ℤ) := by
    rw [show (1000 : ℚ) * 360000 = ((360000000 : ℤ) : ℚ) from by norm_num]
    exact Int.floor_intCast _
  have hv : format_time 360000 = "100:00:00,000" := by
    rw [format_time_eq 360000 (by norm_num), hk]
    decide
  refine ⟨by norm_num, hv, ?_⟩
  rw [hv]
  decide

theorem format_time_mono (q1 q2 : ℚ) (h0 : 0 ≤ q1) (h12 : q1 ≤ q2) (hub : q2 < 360000) :
    format_time q1 ≤ format_time q2 := by
  have h02 : 0 ≤ q2 := le_trans h0 h12
  rw [format_time_eq q1 h0, format_time_eq q2 h02]
  have hle : ⌊(1000 : ℚ) * q1⌋ ≤ ⌊(1000 : ℚ) * q2⌋ := Int.floor_le_floor (by linarith)
  have hnn := floor_thousand_nonneg h0
  have hlt := floor_thousand_lt hub
  have hb2 : (⌊(1000 : ℚ) * q2⌋).toNat < 360000000 := by omega
  have hab : (⌊(1000 : ℚ) * q1⌋).toNat ≤ (⌊(1000 : ℚ) * q2⌋).toNat := by omega
  rcases Nat.eq_or_lt_of_le hab with heq | hlt2
  · rw [heq]
  · rw [String.le_iff_toList_le]
    have hlex : List.Lex (· < ·) (render (⌊(1000 : ℚ) * q1⌋).toNat).data
        (render (⌊(1000 : ℚ) * q2⌋).toNat).data := by
      rw [render_data (by omega), render_data hb2]
      exact renderChars_lex hb2 hlt2
    exact Or.inr hlex

theorem format_time_mono_check : format_time 59 ≤ format_time 3661 :=
  format_time_mono 59 3661 (by decide) (by decide) (by decide)

theorem format_time_mono_fails_at_100h :
    (0 : ℚ) ≤ 359999 ∧ (359999 : ℚ) ≤ 360000 ∧
      ¬ (format_time 359999 ≤ format_time 360000) := by
  have hk1 : ⌊(1000 : ℚ) * 359999⌋ = (359999000 : ℤ) := by
    rw [show (1000 : ℚ) * 359999 = ((359999000 : ℤ) : ℚ) from by norm_num]
    exact Int.floor_intCast _
  have hk2 : ⌊(1000 : ℚ) * 360000⌋ = (360000000 : ℤ) := by
    rw [show (1000 : ℚ) * 360000 = ((360000000 : ℤ) : ℚ) from by norm_num]
    exact Int.floor_intCast _
  refine ⟨by norm_num, by norm_num, ?_⟩
  rw [format_time_eq 359999 (by norm_num), format_time_eq 360000 (by norm_num), hk1, hk2,
    String.le_iff_toList_le, not_le]
  decide

theorem matchesSrtPattern_false_of_head {s : String} (h : s.data.getD 0 ' ' = '-') :
    matchesSrtPattern s = false := by
  unfold matchesSrtPattern
  rw [h]
  have hd : ('-').isDigit = false := by decide
  simp [hd]

theorem format_time_neg_no_match (q : ℚ) (hq : q < 0) :
    matchesSrtPattern (format_time q) = false := by
  have hH : ⌊q / (3600 : ℚ)⌋ < 0 := by
    apply Int.floor_lt.mpr
    push_cast
    exact div_neg_of_neg_of_pos hq (by norm_num)
  have hA : pyInt (pyFloorDiv q 3600) = ⌊q / (3600 : ℚ)⌋ := pyInt_intCast _
  have hAneg : pyInt (pyFloorDiv q 3600) < 0 := by rw [hA]; exact hH
  apply matchesSrtPattern_false_of_head
  have hfmt : format_time q
      = pyFormatInt 2 (pyInt (pyFloorDiv q 3600)) ++ ":"
        ++ pyFormatInt 2 (pyInt (pyFloorDiv (pyMod q 3600) 60)) ++ ":"
        ++ pyFormatInt 2 (pyInt (pyMod (pyMod q 3600) 60)) ++ ","
        ++ pyFormatInt 3 (pyInt ((pyMod (pyMod q 3600) 60
              - ((pyInt (pyMod (pyMod q 3600) 60) : ℤ) : ℚ)) * 1000)) := rfl
  rw [hfmt]
  have hneg : pyFormatInt 2 (pyInt (pyFloorDiv q 3600))
      = "-" ++ zfill 1 (Nat.repr (pyInt (pyFloorDiv q 3600)).natAbs) := by
    unfold pyFormatInt
    rw [if_pos hAneg]
  rw [hneg]
  simp [String.data_append]

theorem format_time_neg_one :
    format_time (-1) = "-1:59:59,000" ∧ matchesSrtPattern (format_time (-1)) = false := by
  have h1 : ⌊(-1 : ℚ) / 3600⌋ = -1 := by
    apply Int.floor_eq_iff.mpr
    constructor
    · push_cast
      norm_num
    · push_cast
      norm_num
  have h2 : ⌊(3599 : ℚ) / 60⌋ = 59 := by
    apply Int.floor_eq_iff.mpr
    constructor
    · push_cast
      norm_num
    · push_cast
      norm_num
  have e2 : pyMod (-1 : ℚ) 3600 = 3599 := by
    unfold pyMod
    rw [h1]
    norm_num
  have eA : pyInt (pyFloorDiv (-1 : ℚ) 3600) = -1 := by
    have h := pyInt_intCast ⌊(-1 : ℚ) / 3600⌋
    rw [h1] at h
    unfold pyFloorDiv
    rw [h1]
    exact pyInt_intCast (-1)
  have eB : pyInt (pyFloorDiv (pyMod (-1 : ℚ) 3600) 60) = 59 := by
    rw [e2]
    unfold pyFloorDiv
    rw [h2]
    exact pyInt_intCast 59
  have e4 : pyMod (pyMod (-1 : ℚ) 3600) 60 = 59 := by
    rw [e2]
    unfold pyMod
    rw [h2]
    norm_num
  have eC : pyInt (pyMod (pyMod (-1 : ℚ) 3600) 60) = 59 := by
    rw [e4, show (59 : ℚ) = ((59 : ℤ) : ℚ) from by norm_num]
    exact pyInt_intCast 59
  have eD : pyInt ((pyMod (pyMod (-1 : ℚ) 3600) 60
      - ((pyInt (pyMod (pyMod (-1 : ℚ) 3600) 60) : ℤ) : ℚ)) * 1000) = 0 := by
    rw [eC, e4, show ((59 : ℚ) - ((59 : ℤ) : ℚ)) * 1000 = ((0 : ℤ) : ℚ) from by norm_num]
    exact pyInt_intCast 0
  have hfmt : format_time (-1 : ℚ)
      = pyFormatInt 2 (pyInt (pyFloorDiv (-1 : ℚ) 3600)) ++ ":"
        ++ pyFormatInt 2 (pyInt (pyFloorDiv (pyMod (-1 : ℚ) 3600) 60)) ++ ":"
        ++ pyFormatInt 2 (pyInt (pyMod (pyMod (-1 : ℚ) 3600) 60)) ++ ","
        ++ pyFormatInt 3 (pyInt ((pyMod (pyMod (-1 : ℚ) 3600) 60
              - ((pyInt (pyMod (pyMod (-1 : ℚ) 3600) 60) : ℤ) : ℚ)) * 1000)) := rfl
  have hv : format_time (-1 : ℚ) = "-1:59:59,000" := by
    rw [hfmt, eD, eC, eB, eA]
    decide
  exact ⟨hv, by rw [hv]; decide⟩

theorem srt_lines_aux (segs : List Segment) : ∀ (k : ℕ) (acc : List String),
    (List.enumFrom k segs).foldl
      (fun srt_text p =>
        ((srt_text ++ [Nat.repr (p.1 + 1)])
          ++ [format_time p.2.start ++ " --> " ++ format_time p.2.end_])
          ++ [pyStrip p.2.text] ++ [""]) acc
      = acc ++ block_lines k segs := by
  induction segs with
  | nil =>
    intro k acc
    simp [block_lines]
  | cons s rest ih =>
    intro k acc
    rw [show List.enumFrom k (s :: rest) = (k, s) :: List.enumFrom (k + 1) rest from rfl,
      List.foldl_cons, ih (k + 1)]
    simp [block_lines]

theorem srt_lines_eq (segs : List Segment) : srt_lines segs = block_lines 0 segs := by
  unfold srt_lines
  rw [show List.enum segs = List.enumFrom 0 segs from rfl, srt_lines_aux segs 0 []]
  simp

theorem block_lines_length (segs : List Segment) :
    ∀ k, (block_lines k segs).length = 4 * segs.length := by
  induction segs with
  | nil => intro k; simp [block_lines]
  | cons s rest ih =>
    intro k
    simp [block_lines, ih (k + 1)]
    omega

theorem getD_cons4 (a b c d : String) (l : List String) (m : ℕ) :
    (a :: b :: c :: d :: l).getD (m + 4) "" = l.getD m "" := by
  rw [show m + 4 = (((m + 1) + 1) + 1) + 1 from by ring]
  simp [List.getD_cons_succ]

theorem block_lines_get (segs : List Segment) :
    ∀ (k i : ℕ), i < segs.length →
      (block_lines k segs).getD (4 * i) "" = Nat.repr (k + i + 1) ∧
      (block_lines k segs).getD (4 * i + 1) ""
        = format_time (segs.getD i ⟨0, 0, ""⟩).start ++ " --> "
          ++ format_time (segs.getD i ⟨0, 0, ""⟩).end_ ∧
      (block_lines k segs).getD (4 * i + 2) "" = pyStrip (segs.getD i ⟨0, 0, ""⟩).text ∧
      (block_lines k segs).getD (4 * i + 3) "" = "" := by
  induction segs with
  | nil =>
    intro k i h
    simp at h
  | cons s rest ih =>
    intro k i h
    match i with
    | 0 => simp [block_lines]
    | i' + 1 =>
      have h' : i' < rest.length := by simpa using h
      have hrec := ih (k + 1) i' h'
      rw [show 4 * (i' + 1) + 3 = (4 * i' + 3) + 4 from by ring,
        show 4 * (i' + 1) + 2 = (4 * i' + 2) + 4 from by ring,
        show 4 * (i' + 1) + 1 = (4 * i' + 1) + 4 from by ring,
        show 4 * (i' + 1) = 4 * i' + 4 from by ring,
        show k + (i' + 1) + 1 = (k + 1) + i' + 1 from by ring,
        show block_lines k (s :: rest)
          = Nat.repr (k + 1) :: (format_time s.start ++ " --> " ++ format_time s.end_)
            :: pyStrip s.text :: "" :: block_lines (k + 1) rest from rfl,
        getD_cons4, getD_cons4, getD_cons4, getD_cons4]
      simpa using hrec

theorem segments_to_srt_block_format :
    segments_to_srt [⟨0, 1.25, "Hello"⟩] = "1\n00:00:00,000 --> 00:00:01,250\nHello\n" ∧
      ∀ segs : List Segment, segments_to_srt segs = String.intercalate "\n" (block_lines 0 segs) := by
  have hgen : ∀ segs : List Segment,
      segments_to_srt segs = String.intercalate "\n" (block_lines 0 segs) := by
    intro segs
    unfold segments_to_srt
    rw [srt_lines_eq]
  constructor
  · have h0 : format_time 0 = "00:00:00,000" := by
      rw [format_time_eq 0 le_rfl,
        show ⌊(1000 : ℚ) * 0⌋ = (0 : ℤ) from by rw [mul_zero]; exact Int.floor_zero]
      decide
    have h125 : format_time (1.25 : ℚ) = "00:00:01,250" := by
      rw [format_time_eq _ (by norm_num),
        show ⌊(1000 : ℚ) * (1.25 : ℚ)⌋ = (1250 : ℤ) from by
          rw [show (1000 : ℚ) * (1.25 : ℚ) = ((1250 : ℤ) : ℚ) from by norm_num]
          exact Int.floor_intCast _]
      decide
    rw [hgen]
    rw [show block_lines 0 [(⟨0, 1.25, "Hello"⟩ : Segment)]
        = [Nat.repr 1, format_time (0 : ℚ) ++ " --> " ++ format_time (1.25 : ℚ),
            pyStrip "Hello", ""] from rfl]
    rw [h0, h125]
    decide
  · exact hgen

theorem segments_to_srt_indices :
    segments_to_srt [] = "" ∧
      ∀ segs : List Segment,
        (srt_lines segs).length = 4 * segs.length ∧
        ∀ i, i < segs.length →
          (srt_lines segs).getD (4 * i) "" = Nat.repr (i + 1) ∧
          (srt_lines segs).getD (4 * i + 1) ""
            = format_time (segs.getD i ⟨0, 0, ""⟩).start ++ " --> "
              ++ format_time (segs.getD i ⟨0, 0, ""⟩).end_ ∧
          (srt_lines segs).getD (4 * i + 2) "" = pyStrip (segs.getD i ⟨0, 0, ""⟩).text ∧
          (srt_lines segs).getD (4 * i + 3) "" = "" := by
  refine ⟨rfl, fun segs => ⟨?_, fun i hi => ?_⟩⟩
  · rw [srt_lines_eq]
    exact block_lines_length segs 0
  · rw [srt_lines_eq]
    have h := block_lines_get segs 0 i hi
    rwa [show (0 : ℕ) + i + 1 = i + 1 from by ring] at h

theorem segments_to_srt_indices_check :
    (srt_lines [⟨0, 1, "a"⟩, ⟨1, 2, "b"⟩]).length = 4 * [(⟨0, 1, "a"⟩ : Segment), ⟨1, 2, "b"⟩].length ∧
      (srt_lines [⟨0, 1, "a"⟩, ⟨1, 2, "b"⟩]).getD 4 "" = Nat.repr 2 :=
  ⟨(segments_to_srt_indices.2 _).1,
    (by simpa using ((segments_to_srt_indices.2 [⟨0, 1, "a"⟩, ⟨1, 2, "b"⟩]).2 1 (by decide)).1)⟩

theorem pyStr_natCast (n : ℕ) : pyStr (n : ℤ) = Nat.repr n := by
  unfold pyStr
  rw [if_neg (not_lt.mpr (Int.natCast_nonneg n)), Int.natAbs_ofNat]

theorem get_video_duration_eq (d : ℚ) (hd : 0 ≤ d) :
    get_video_duration d
      = Nat.repr (⌊d⌋.toNat / 3600) ++ ":" ++ Nat.repr (⌊d⌋.toNat % 3600 / 60) ++ ":"
        ++ Nat.repr (⌊d⌋.toNat % 60) := by
  have hn : (0 : ℤ) ≤ ⌊d⌋ := Int.floor_nonneg.mpr hd
  have e3600 : (3600 : ℚ) = ((3600 : ℤ) : ℚ) := by norm_num
  have e60 : (60 : ℚ) = ((60 : ℤ) : ℚ) := by norm_num
  have hH : ⌊d / (3600 : ℚ)⌋ = ⌊d⌋ / 3600 := by
    rw [e3600, floor_div_int d 3600 (by norm_num)]
  have h60 : ⌊d / (60 : ℚ)⌋ = ⌊d⌋ / 60 := by
    rw [e60, floor_div_int d 60 (by norm_num)]
  have hA : pyInt (pyFloorDiv d 3600) = ⌊d⌋ / 3600 := by
    have h1 : pyInt (pyFloorDiv d 3600) = ⌊d / (3600 : ℚ)⌋ := pyInt_intCast _
    rw [h1, hH]
  have hmod : pyMod d 3600 = d - ((3600 * (⌊d⌋ / 3600) : ℤ) : ℚ) := by
    unfold pyMod
    rw [hH]
    push_cast
    ring
  have hB : pyInt (pyFloorDiv (pyMod d 3600) 60) = ⌊d⌋ % 3600 / 60 := by
    have h1 : pyInt (pyFloorDiv (pyMod d 3600) 60) = ⌊(pyMod d 3600) / (60 : ℚ)⌋ :=
      pyInt_intCast _
    rw [h1, hmod]
    have hsplit : (d - ((3600 * (⌊d⌋ / 3600) : ℤ) : ℚ)) / 60
        = d / 60 - ((60 * (⌊d⌋ / 3600) : ℤ) : ℚ) := by
      push_cast
      ring
    rw [hsplit, Int.floor_sub_int, h60]
    omega
  have hmod60 : pyMod d 60 = d - ((60 * (⌊d⌋ / 60) : ℤ) : ℚ) := by
    unfold pyMod
    rw [h60]
    push_cast
    ring
  have hC : pyInt (pyMod d 60) = ⌊d⌋ % 60 := by
    rw [pyInt_of_nonneg (pyMod_nonneg d (by norm_num)), hmod60, Int.floor_sub_int]
    omega
  have hfmt : get_video_duration d
      = pyStr (pyInt (pyFloorDiv d 3600)) ++ ":" ++ pyStr (pyInt (pyFloorDiv (pyMod d 3600) 60))
        ++ ":" ++ pyStr (pyInt (pyMod d 60)) := rfl
  rw [hfmt, hA, hB, hC,
    show (⌊d⌋ % 60 : ℤ) = ((⌊d⌋.toNat % 60 : ℕ) : ℤ) from by omega,
    show (⌊d⌋ % 3600 / 60 : ℤ) = ((⌊d⌋.toNat % 3600 / 60 : ℕ) : ℤ) from by omega,
    show (⌊d⌋ / 3600 : ℤ) = ((⌊d⌋.toNat / 3600 : ℕ) : ℤ) from by omega,
    pyStr_natCast, pyStr_natCast, pyStr_natCast]

theorem get_video_duration_spec :
    (∀ d : ℚ, 0 ≤ d →
      get_video_duration d
        = Nat.repr (⌊d⌋.toNat / 3600) ++ ":" ++ Nat.repr (⌊d⌋.toNat % 3600 / 60) ++ ":"
          ++ Nat.repr (⌊d⌋.toNat % 60)) ∧
    get_video_duration 3661 = "1:1:1" ∧ get_video_duration 59 = "0:0:59" ∧
    get_video_duration 360000 = "100:0:0" := by
  refine ⟨get_video_duration_eq, ?_, ?_, ?_⟩
  · rw [get_video_duration_eq 3661 (by norm_num),
      show ⌊(3661 : ℚ)⌋ = (3661 : ℤ) from by
        rw [show (3661 : ℚ) = ((3661 : ℤ) : ℚ) from by norm_num]
        exact Int.floor_intCast _]
    decide
  · rw [get_video_duration_eq 59 (by norm_num),
      show ⌊(59 : ℚ)⌋ = (59 : ℤ) from by
        rw [show (59 : ℚ) = ((59 : ℤ) : ℚ) from by norm_num]
        exact Int.floor_intCast _]
    decide
  · rw [get_video_duration_eq 360000 (by norm_num),
      show ⌊(360000 : ℚ)⌋ = (360000 : ℤ) from by
        rw [show (360000 : ℚ) = ((360000 : ℤ) : ℚ) from by norm_num]
        exact Int.floor_intCast _]
    decide

theorem get_video_duration_spec_check :
    (0 : ℚ) ≤ 120 ∧
      get_video_duration 120
        = Nat.repr (⌊(120 : ℚ)⌋.toNat / 3600) ++ ":" ++ Nat.repr (⌊(120 : ℚ)⌋.toNat % 3600 / 60)
          ++ ":" ++ Nat.repr (⌊(120 : ℚ)⌋.toNat % 60) :=
  ⟨by decide, get_video_duration_spec.1 120 (by decide)⟩

theorem transcribe_no_audio (v : Video) (w : Except PyErr Transcript)
    (h : v.hasAudio = false) :
    transcribe (.ok v) w
      = ⟨none, false, ["Error transcribing video: File does not contain an audio stream."]⟩ ∧
      (transcribe_body (.ok v) w).1
        = .error (.valueError "File does not contain an audio stream.") := by
  obtain ⟨a⟩ := v
  have ha : a = false := h
  subst ha
  exact ⟨rfl, rfl⟩

theorem transcribe_no_audio_check :
    transcribe (.ok ⟨false⟩) (.ok ⟨"", []⟩)
      = ⟨none, false, ["Error transcribing video: File does not contain an audio stream."]⟩ :=
  (transcribe_no_audio ⟨false⟩ (.ok ⟨"", []⟩) rfl).1

theorem transcribe_catches_all (o : Except PyErr Video) (w : Except PyErr Transcript)
    (e : PyErr) (h : (transcribe_body o w).1 = .error e) :
    transcribe o w = ⟨none, (transcribe_body o w).2, [handle_message e]⟩ ∧
      (handle_message e = "Error transcribing video: " ++ e.msg ∨
        handle_message e = "Unexpected error transcribing video: " ++ e.msg) := by
  constructor
  · unfold transcribe
    rcases hb : transcribe_body o w with ⟨r, inv⟩
    rw [hb] at h
    simp only at h
    subst h
    rfl
  · cases e
    · left
      rfl
    · right
      rfl

theorem transcribe_catches_all_check :
    transcribe (.ok ⟨true⟩) (.error (.otherError "boom"))
      = ⟨none, (transcribe_body (.ok ⟨true⟩) (.error (.otherError "boom"))).2,
          [handle_message (.otherError "boom")]⟩ :=
  (transcribe_catches_all (.ok ⟨true⟩) (.error (.otherError "boom")) (.otherError "boom") rfl).1

theorem transcribe_result_carries_no_message :
    (transcribe (.ok ⟨true⟩) (.error (.otherError "boom"))).result = none ∧
      (transcribe (.ok ⟨true⟩) (.error (.otherError "boom"))).result
        = (transcribe (.ok ⟨true⟩) (.error (.otherError "bang"))).result ∧
      ("boom" : String) ≠ "bang" := by
  refine ⟨rfl, rfl, ?_⟩
  decide

theorem transcribe_collapses_failures :
    (∀ w : Except PyErr Transcript, (transcribe (.ok ⟨false⟩) w).result = none) ∧
      (∀ (v : Video) (e : PyErr), (transcribe (.ok v) (.error e)).result = none) ∧
      (∀ (e : PyErr) (w : Except PyErr Transcript), (transcribe (.error e) w).result = none) ∧
      (∀ (w : Except PyErr Transcript) (e : PyErr),
        (transcribe (.ok ⟨false⟩) w).result = (transcribe (.ok ⟨true⟩) (.error e)).result) ∧
      (∀ (o : Except PyErr Video) (w : Except PyErr Transcript) (e : PyErr),
        (transcribe_body o w).1 = .error e → (transcribe o w).result = none) ∧
      (∀ (o : Except PyErr Video) (w : Except PyErr Transcript) (t : Transcript),
        (transcribe o w).result = some t → o = .ok ⟨true⟩ ∧ w = .ok t) := by
  refine ⟨fun w => rfl, ?_, fun e w => rfl, fun w e => rfl, ?_, ?_⟩
  · intro v e
    obtain ⟨a⟩ := v
    cases a
    · rfl
    · rfl
  · intro o w e h
    unfold transcribe
    rcases hb : transcribe_body o w with ⟨r, inv⟩
    rw [hb] at h
    simp only at h
    subst h
    rfl
  · intro o w t h
    match o with
    | .error e => exact absurd h (by simp [transcribe, transcribe_body])
    | .ok ⟨false⟩ => exact absurd h (by simp [transcribe, transcribe_body])
    | .ok ⟨true⟩ =>
      match w with
      | .error e => exact absurd h (by simp [transcribe, transcribe_body])
      | .ok t' =>
        have ht : t' = t := by
          have h' : some t' = some t := h
          exact Option.some.inj h'
        subst ht
        exact ⟨rfl, rfl⟩

theorem transcribe_collapses_failures_check :
    (Except.ok (⟨true⟩ : Video) : Except PyErr Video) = Except.ok (⟨true⟩ : Video) ∧
      (Except.ok (⟨"t", []⟩ : Transcript) : Except PyErr Transcript)
        = Except.ok (⟨"t", []⟩ : Transcript) :=
  transcribe_collapses_failures.2.2.2.2.2 (.ok ⟨true⟩) (.ok ⟨"t", []⟩) ⟨"t", []⟩ rfl

theorem generate_summary_request (transcript : String) (length : String) :
    (∀ t2 l2 : String,
      (generate_summary_messages transcript length).getD 0 ⟨"", ""⟩
        = (generate_summary_messages t2 l2).getD 0 ⟨"", ""⟩) ∧
      (generate_summary_messages transcript length).getD 0 ⟨"", ""⟩
        = ⟨"system", system_prompt⟩ ∧
      (generate_summary_messages transcript length).length = 2 ∧
      ((generate_summary_messages transcript length).getD 1 ⟨"", ""⟩).role = "user" ∧
      List.IsInfix length.data
        ((generate_summary_messages transcript length).getD 1 ⟨"", ""⟩).content.data ∧
      List.IsInfix transcript.data
        ((generate_summary_messages transcript length).getD 1 ⟨"", ""⟩).content.data := by
  refine ⟨fun t2 l2 => rfl, rfl, rfl, rfl, ?_, ?_⟩
  · show List.IsInfix length.data
      ("The following transcript is for a video of length " ++ length
        ++ ":\n " ++ transcript).data
    refine ⟨"The following transcript is for a video of length ".data,
      (":\n " ++ transcript).data, ?_⟩
    simp [String.data_append]
  · show List.IsInfix transcript.data
      ("The following transcript is for a video of length " ++ length
        ++ ":\n " ++ transcript).data
    refine ⟨("The following transcript is for a video of length " ++ length ++ ":\n ").data,
      [], ?_⟩
    simp [String.data_append]

theorem format_time_neg_no_match_check : matchesSrtPattern (format_time (-1)) = false :=
  format_time_neg_no_match (-1) (by decide)
